import Mathlib

/-!
Verification development for the go-kit structured error framework
(packages `errors` and `code` of NSObjects/go-kit).

The Go code is shallowly embedded: Go `error` values (which may be nil)
become `Option GoError`; the three concrete error types of the `errors`
package (`fundamental`, `withMessage`, `codeError`) become the three
constructors of `GoError`; the process-wide registry map becomes an
explicit association-list state threaded through `Register`/`MustRegister`/
`Lookup`/`HTTPStatus`; a panic becomes the `.error` branch of `Except`.
Stack snapshots returned by `runtime.Callers` are runtime-dependent, so
every constructor that calls `callers()` takes the captured snapshot as an
explicit `List Nat` parameter (a list of program counters); symbolization
of a program counter (`runtime.CallersFrames`) is likewise an explicit
`resolve : Nat → Frame` parameter of the verbose formatter.
-/

set_option autoImplicit false

namespace GoKit

/-- A resolved stack frame, as produced by `runtime.CallersFrames`:
function name, file and line. -/
structure Frame where
  function : String
  file : String
  line : Int
deriving Repr

/-- The three concrete error types of the `errors` package.

* `fundamental msg stack` — `errors.fundamental`: message and stack, no
  cause, no code, no `Unwrap` method.
* `withMessage cause msg stack hasCode code` — `errors.withMessage`: the
  struct has fields `cause`, `msg`, `stack`, `hasCode`, `code`; the public
  constructors always set `hasCode := false` and leave `code` at its zero
  value, and the type has **no** `Code()` method, so it never satisfies the
  `CodedError` interface.
* `codeError code message cause stack` — `errors.codeError`: carries a
  code, a message, an optional cause and a stack; it has a `Code()` method.

A Go `error` interface value, which may be nil, is `Option GoError`. -/
inductive GoError : Type where
  | fundamental (msg : String) (stack : List Nat)
  | withMessage (cause : Option GoError) (msg : String) (stack : List Nat)
      (hasCode : Bool) (code : Int)
  | codeError (code : Int) (message : String) (cause : Option GoError)
      (stack : List Nat)
deriving Repr

namespace GoError

/-- The `Unwrap()` method dispatch performed by `errors.Unwrap`:
`withMessage` and `codeError` expose their `cause` field; `fundamental`
has no `Unwrap` method, so unwrapping yields nil. -/
def unwrapped : GoError → Option GoError
  | .fundamental _ _ => none
  | .withMessage cause _ _ _ _ => cause
  | .codeError _ _ cause _ => cause

/-- The node's own message field (`msg` for `fundamental`/`withMessage`,
`message` for `codeError`). -/
def msgField : GoError → String
  | .fundamental msg _ => msg
  | .withMessage _ msg _ _ _ => msg
  | .codeError _ message _ _ => message

/-- The node's own stack field. -/
def stackField : GoError → List Nat
  | .fundamental _ stack => stack
  | .withMessage _ _ stack _ _ => stack
  | .codeError _ _ _ stack => stack

/-- The type assertion `err.(CodedError)` followed by `Code()`: only
`codeError` has a `Code()` method. -/
def ownCode : GoError → Option Int
  | .codeError code _ _ _ => some code
  | _ => none

/-- `Error()` of each error type: `fundamental` returns its message;
`withMessage.Error` and `codeError.Error` return
`msg + ": " + cause.Error()` when the cause is non-nil, else `msg`. -/
def errorString : GoError → String
  | .fundamental msg _ => msg
  | .withMessage none msg _ _ _ => msg
  | .withMessage (some cause) msg _ _ _ => msg ++ ": " ++ errorString cause
  | .codeError _ message none _ => message
  | .codeError _ message (some cause) _ => message ++ ": " ++ errorString cause

/-- The walk performed by `errors.As(err, &coded)` specialised to the
`CodedError` target: starting at the outermost node, succeed at the first
node with a `Code()` method (only `codeError` has one), otherwise follow
the node's `Unwrap()` method; `fundamental` has no `Unwrap`, and a nil
cause ends the walk. -/
def asCoded : GoError → Option Int
  | .fundamental _ _ => none
  | .withMessage none _ _ _ _ => none
  | .withMessage (some cause) _ _ _ _ => asCoded cause
  | .codeError code _ _ _ => some code

/-- The chain of nodes visited by unwrapping, outermost first. -/
def chainList : GoError → List GoError
  | .fundamental msg stack => [.fundamental msg stack]
  | .withMessage none msg stack hasCode code =>
      [.withMessage none msg stack hasCode code]
  | .withMessage (some cause) msg stack hasCode code =>
      .withMessage (some cause) msg stack hasCode code :: chainList cause
  | .codeError code message none stack => [.codeError code message none stack]
  | .codeError code message (some cause) stack =>
      .codeError code message (some cause) stack :: chainList cause

end GoError

/-- Format arguments fed to `fmt.Sprintf` (only the `%s`/`%d` verbs the
repository uses). -/
inductive FmtArg : Type where
  | str (s : String)
  | int (i : Int)
deriving Repr

/-- Model of `fmt.Sprintf` restricted to the `%s`, `%d` and `%%` verbs,
substituting arguments in order. -/
def sprintfAux : List Char → List FmtArg → String
  | [], _ => ""
  | '%' :: 's' :: rest, .str s :: args => s ++ sprintfAux rest args
  | '%' :: 'd' :: rest, .int i :: args => toString i ++ sprintfAux rest args
  | '%' :: '%' :: rest, args => "%" ++ sprintfAux rest args
  | c :: rest, args => String.singleton c ++ sprintfAux rest args

/-- `fmt.Sprintf format args...`. -/
def Sprintf (format : String) (args : List FmtArg) : String :=
  sprintfAux format.toList args

/-- `errors.New(message)`: a `fundamental` node holding the stack snapshot
`stack` that `callers()` captured. -/
def New (message : String) (stack : List Nat) : Option GoError :=
  some (.fundamental message stack)

/-- `errors.Errorf(format, args...)`. -/
def Errorf (format : String) (args : List FmtArg) (stack : List Nat) :
    Option GoError :=
  some (.fundamental (Sprintf format args) stack)

/-- `errors.Wrap(err, message)`: nil for nil `err`, otherwise a
`withMessage` node with a fresh stack snapshot and `hasCode: false`. -/
def Wrap (err : Option GoError) (message : String) (stack : List Nat) :
    Option GoError :=
  match err with
  | none => none
  | some e => some (.withMessage (some e) message stack false 0)

/-- `errors.Wrapf(err, format, args...)`. -/
def Wrapf (err : Option GoError) (format : String) (args : List FmtArg)
    (stack : List Nat) : Option GoError :=
  match err with
  | none => none
  | some e => some (.withMessage (some e) (Sprintf format args) stack false 0)

/-- `errors.WithMessage(err, message)`: like `Wrap` but captures no stack
(the `stack` field stays a nil slice). -/
def WithMessage (err : Option GoError) (message : String) : Option GoError :=
  match err with
  | none => none
  | some e => some (.withMessage (some e) message [] false 0)

/-- `errors.WithMessagef(err, format, args...)`. -/
def WithMessagef (err : Option GoError) (format : String)
    (args : List FmtArg) : Option GoError :=
  match err with
  | none => none
  | some e => some (.withMessage (some e) (Sprintf format args) [] false 0)

/-- `errors.WithCode(code, format, args...)`: a root `codeError` (nil
cause) carrying `code` and a stack snapshot; never nil. -/
def WithCode (code : Int) (format : String) (args : List FmtArg)
    (stack : List Nat) : Option GoError :=
  some (.codeError code (Sprintf format args) none stack)

/-- `errors.WrapCode(err, code, format, args...)`: nil for nil `err`,
otherwise a `codeError` node owning `err` as cause. -/
def WrapCode (err : Option GoError) (code : Int) (format : String)
    (args : List FmtArg) (stack : List Nat) : Option GoError :=
  match err with
  | none => none
  | some e => some (.codeError code (Sprintf format args) (some e) stack)

/-- `errors.GetCode(err)`: `errors.As` for the first node with a `Code()`
method, returning its code, or `0` when none is found (also for nil). -/
def GetCode (err : Option GoError) : Int :=
  match err with
  | none => 0
  | some e =>
    match e.asCoded with
    | some code => code
    | none => 0

/-- `errors.IsCode(err, code)`: loop over the chain, at each node trying
the direct type assertion `err.(CodedError)` and comparing its code, then
stepping to `Unwrap(err)`. -/
def IsCodeChain : GoError → Int → Bool
  | .fundamental _ _, _ => false
  | .withMessage none _ _ _ _, _ => false
  | .withMessage (some cause) _ _ _ _, code => IsCodeChain cause code
  | .codeError c _ none _, code => c == code
  | .codeError c _ (some cause) _, code => c == code || IsCodeChain cause code

/-- `errors.IsCode(err, code)` entry point (false on nil). -/
def IsCode (err : Option GoError) (code : Int) : Bool :=
  match err with
  | none => false
  | some e => IsCodeChain e code

/-- `strings.Contains(s, "runtime.")`, used by `formatStack` to skip
runtime frames. -/
def containsRuntimeDot (s : String) : Bool :=
  (s.splitOn "runtime.").length != 1

/-- The text `formatStack` emits for one resolved, non-runtime frame. -/
def frameText (f : Frame) : String :=
  "\n    " ++ f.function ++ "\n        " ++ f.file ++ ":" ++ toString f.line

/-- `errors.formatStack(w, stack)`: empty for an empty snapshot, otherwise
the concatenation of the frame texts of the non-runtime frames, each
program counter resolved by `resolve` (model of `runtime.CallersFrames`). -/
def formatStack (resolve : Nat → Frame) (stack : List Nat) : String :=
  match stack with
  | [] => ""
  | _ =>
    String.join (stack.map fun pc =>
      let f := resolve pc
      if containsRuntimeDot f.function then "" else frameText f)

/-- The `%+v` rendering of an error, following each type's `Format`
method: `fundamental` prints its message then its stack; `withMessage`
prints `Error()` then its stack when non-empty; `codeError` prints
`[code] message`, then `: ` and the cause's own `%+v` when the cause is
non-nil, then its stack when non-empty. -/
def GoError.plusV (resolve : Nat → Frame) : GoError → String
  | .fundamental msg stack => msg ++ formatStack resolve stack
  | .withMessage none msg stack _ _ =>
      msg ++ (if stack.isEmpty then "" else formatStack resolve stack)
  | .withMessage (some cause) msg stack _ _ =>
      (msg ++ ": " ++ cause.errorString)
        ++ (if stack.isEmpty then "" else formatStack resolve stack)
  | .codeError code message none stack =>
      "[" ++ toString code ++ "] " ++ message
        ++ (if stack.isEmpty then "" else formatStack resolve stack)
  | .codeError code message (some c) stack =>
      "[" ++ toString code ++ "] " ++ message
        ++ (": " ++ GoError.plusV resolve c)
        ++ (if stack.isEmpty then "" else formatStack resolve stack)

/-- `errors.coder`: the registered (code, HTTP status, message) triple. -/
structure coder where
  code : Int
  httpStatus : Int
  message : String
deriving Repr, DecidableEq

/-- The registry state (`map[int]coder`), modelled as an association list
with unique keys maintained by `regInsert`. -/
abbrev Registry := List (Int × coder)

/-- Map read `registry[code]`. -/
def regFind (r : Registry) (code : Int) : Option coder :=
  match r with
  | [] => none
  | (k, v) :: rest => if k == code then some v else regFind rest code

/-- Map write `registry[code] = v` (overwrites an existing key). -/
def regInsert (r : Registry) (code : Int) (v : coder) : Registry :=
  match r with
  | [] => [(code, v)]
  | (k, w) :: rest =>
    if k == code then (code, v) :: rest else (k, w) :: regInsert rest code v

/-- `errors.unknownCoder`: code 1, status 500, generic message. -/
def unknownCoder : coder :=
  { code := 1, httpStatus := 500, message := "Internal server error" }

/-- `errors.Register(code, httpStatus, message)`: panics (modelled as
`.error`) when `code == 0` or `code` is already present — both panics fire
before the map write, leaving the registry unchanged; otherwise stores the
new coder keyed by `code`. -/
def Register (r : Registry) (code httpStatus : Int) (message : String) :
    Except String Registry :=
  if code == 0 then .error "error code 0 is reserved"
  else
    match regFind r code with
    | some _ =>
        .error ("error code " ++ toString code ++ " already registered")
    | none =>
        .ok (regInsert r code
          { code := code, httpStatus := httpStatus, message := message })

/-- `errors.MustRegister(code, httpStatus, message)`: same zero-code
panic, but overwrites an existing entry instead of panicking. -/
def MustRegister (r : Registry) (code httpStatus : Int) (message : String) :
    Except String Registry :=
  if code == 0 then .error "error code 0 is reserved"
  else
    .ok (regInsert r code
      { code := code, httpStatus := httpStatus, message := message })

/-- `errors.Lookup(code)`: the stored coder and `true`, or the zero-value
`coder` and `false` when absent. -/
def Lookup (r : Registry) (code : Int) : coder × Bool :=
  match regFind r code with
  | some c => (c, true)
  | none => ({ code := 0, httpStatus := 0, message := "" }, false)

/-- `errors.HTTPStatus(code)`: the registered status, or
`http.StatusInternalServerError` (500) when `code` is unregistered. -/
def HTTPStatus (r : Registry) (code : Int) : Int :=
  match regFind r code with
  | some c => c.httpStatus
  | none => 500

/-- `errors.ParseCoder(err)`: nil gives none; a chain without a code, or
with an unregistered code, resolves to `unknownCoder`. -/
def ParseCoder (r : Registry) (err : Option GoError) : Option coder :=
  match err with
  | none => none
  | some e =>
    let code := GetCode (some e)
    if code == 0 then some unknownCoder
    else
      match regFind r code with
      | some c => some c
      | none => some unknownCoder

/-! Error-code constants of `code/base.go` (iota-derived values). -/

def ErrSuccess : Int := 100001
def ErrUnknown : Int := 100002
def ErrBind : Int := 100003
def ErrValidation : Int := 100004
def ErrTokenInvalid : Int := 100005

def ErrDatabase : Int := 100101
def ErrRedis : Int := 100102
def ErrKafka : Int := 100103
def ErrExternalService : Int := 100104

def ErrBadRequest : Int := 100400
def ErrUnauthorized : Int := 100401
def ErrForbidden : Int := 100403
def ErrNotFound : Int := 100404
def ErrInternalServer : Int := 100500

def ErrEncrypt : Int := 100201
def ErrSignatureInvalid : Int := 100202
def ErrExpired : Int := 100203
def ErrInvalidAuthHeader : Int := 100204
def ErrMissingHeader : Int := 100205
def ErrPasswordIncorrect : Int := 100206
def ErrPermissionDenied : Int := 100207
def ErrAccountLocked : Int := 100208
def ErrAccountDisabled : Int := 100209
def ErrTooManyAttempts : Int := 100210

def ErrEncodingFailed : Int := 100301
def ErrDecodingFailed : Int := 100302
def ErrInvalidJSON : Int := 100303
def ErrEncodingJSON : Int := 100304
def ErrDecodingJSON : Int := 100305
def ErrInvalidYaml : Int := 100306
def ErrEncodingYaml : Int := 100307
def ErrDecodingYaml : Int := 100308

/-- The `errors.Register` calls of `code/base.go`'s `init`, in order. -/
def initTable : List (Int × Int × String) :=
  [(ErrSuccess, 200, "OK"),
   (ErrUnknown, 500, "Internal server error"),
   (ErrBind, 400, "Error binding request"),
   (ErrValidation, 400, "Validation failed"),
   (ErrTokenInvalid, 401, "Token invalid"),
   (ErrDatabase, 500, "Database error"),
   (ErrRedis, 500, "Redis error"),
   (ErrKafka, 500, "Kafka error"),
   (ErrExternalService, 500, "External service error"),
   (ErrBadRequest, 400, "Bad request"),
   (ErrUnauthorized, 401, "Unauthorized"),
   (ErrForbidden, 403, "Forbidden"),
   (ErrNotFound, 404, "Not found"),
   (ErrInternalServer, 500, "Internal server error"),
   (ErrEncrypt, 401, "Encryption failed"),
   (ErrSignatureInvalid, 401, "Signature is invalid"),
   (ErrExpired, 401, "Token expired"),
   (ErrInvalidAuthHeader, 401, "Invalid authorization header"),
   (ErrMissingHeader, 401, "Authorization header missing"),
   (ErrPasswordIncorrect, 401, "Password incorrect"),
   (ErrPermissionDenied, 403, "Permission denied"),
   (ErrAccountLocked, 403, "Account locked"),
   (ErrAccountDisabled, 403, "Account disabled"),
   (ErrTooManyAttempts, 403, "Too many attempts"),
   (ErrEncodingFailed, 500, "Encoding failed"),
   (ErrDecodingFailed, 500, "Decoding failed"),
   (ErrInvalidJSON, 500, "Invalid JSON"),
   (ErrEncodingJSON, 500, "JSON encoding failed"),
   (ErrDecodingJSON, 500, "JSON decoding failed"),
   (ErrInvalidYaml, 500, "Invalid YAML"),
   (ErrEncodingYaml, 500, "YAML encoding failed"),
   (ErrDecodingYaml, 500, "YAML decoding failed")]

/-- Running `code/base.go`'s `init` from the empty registry. -/
def initRegistryE : Except String Registry :=
  initTable.foldlM (fun r e => Register r e.1 e.2.1 e.2.2) []

/-- The registry state after `code/base.go`'s `init` (the state every
request-time read observes). -/
def initRegistry : Registry :=
  match initRegistryE with
  | .ok r => r
  | .error _ => []

/-! The `code` package layer (`code/code.go`). Its functions read the
process-wide registry through `errors.HTTPStatus`; the registry state is
passed explicitly as `r`. -/

/-- `code.NewError(code, message)` = `errors.WithCode(code, "%s", message)`. -/
def NewError (code : Int) (message : String) (stack : List Nat) :
    Option GoError :=
  WithCode code "%s" [.str message] stack

/-- `code.NewErrorf(code, format, args...)`. -/
def NewErrorf (code : Int) (format : String) (args : List FmtArg)
    (stack : List Nat) : Option GoError :=
  WithCode code format args stack

/-- `code.wrapIfError`: nil in, nil out; otherwise `errors.WrapCode`. -/
def wrapIfError (err : Option GoError) (code : Int) (format : String)
    (args : List FmtArg) (stack : List Nat) : Option GoError :=
  match err with
  | none => none
  | some e => WrapCode (some e) code format args stack

/-- `code.wrapOrNew`: a fresh coded error when `err` is nil, otherwise
`errors.WrapCode` with the `"%s"` format. -/
def wrapOrNew (err : Option GoError) (code : Int) (message : String)
    (stack : List Nat) : Option GoError :=
  match err with
  | none => NewError code message stack
  | some e => WrapCode (some e) code "%s" [.str message] stack

/-- `code.wrapOrNewf`: formatted variant of `wrapOrNew`. -/
def wrapOrNewf (err : Option GoError) (code : Int) (format : String)
    (args : List FmtArg) (stack : List Nat) : Option GoError :=
  match err with
  | none => NewErrorf code format args stack
  | some e => WrapCode (some e) code format args stack

/-- `code.WrapError(err, code, message)`. -/
def WrapError (err : Option GoError) (code : Int) (message : String)
    (stack : List Nat) : Option GoError :=
  wrapOrNew err code message stack

/-- `code.WrapErrorf(err, code, format, args...)`. -/
def WrapErrorf (err : Option GoError) (code : Int) (format : String)
    (args : List FmtArg) (stack : List Nat) : Option GoError :=
  wrapOrNewf err code format args stack

/-- `code.WrapDatabaseError(err, operation)`. -/
def WrapDatabaseError (err : Option GoError) (operation : String)
    (stack : List Nat) : Option GoError :=
  wrapIfError err ErrDatabase "database %s failed" [.str operation] stack

/-- `code.WrapRedisError(err, operation)`. -/
def WrapRedisError (err : Option GoError) (operation : String)
    (stack : List Nat) : Option GoError :=
  wrapIfError err ErrRedis "redis %s failed" [.str operation] stack

/-- `code.WrapKafkaError(err, operation)`. -/
def WrapKafkaError (err : Option GoError) (operation : String)
    (stack : List Nat) : Option GoError :=
  wrapIfError err ErrKafka "kafka %s failed" [.str operation] stack

/-- `code.WrapExternalError(err, service, operation)`. -/
def WrapExternalError (err : Option GoError) (service operation : String)
    (stack : List Nat) : Option GoError :=
  wrapIfError err ErrExternalService "external service %s %s failed"
    [.str service, .str operation] stack

/-- `code.WrapBadRequestError(err, message)`. -/
def WrapBadRequestError (err : Option GoError) (message : String)
    (stack : List Nat) : Option GoError :=
  wrapOrNew err ErrBadRequest message stack

/-- `code.WrapUnauthorizedError(err, message)`. -/
def WrapUnauthorizedError (err : Option GoError) (message : String)
    (stack : List Nat) : Option GoError :=
  wrapOrNew err ErrUnauthorized message stack

/-- `code.WrapForbiddenError(err, message)`. -/
def WrapForbiddenError (err : Option GoError) (message : String)
    (stack : List Nat) : Option GoError :=
  wrapOrNew err ErrForbidden message stack

/-- `code.WrapNotFoundError(err, message)`. -/
def WrapNotFoundError (err : Option GoError) (message : String)
    (stack : List Nat) : Option GoError :=
  wrapOrNew err ErrNotFound message stack

/-- `code.WrapInternalServerError(err, message)`. -/
def WrapInternalServerError (err : Option GoError) (message : String)
    (stack : List Nat) : Option GoError :=
  wrapOrNew err ErrInternalServer message stack

/-- `code.WrapBindError(err, message)`. -/
def WrapBindError (err : Option GoError) (message : String)
    (stack : List Nat) : Option GoError :=
  wrapOrNew err ErrBind message stack

/-- `code.WrapValidationError(err, message)`. -/
def WrapValidationError (err : Option GoError) (message : String)
    (stack : List Nat) : Option GoError :=
  wrapOrNew err ErrValidation message stack

/-- `code.IsClientError(errCode)`: the resolved status lies in [400,500). -/
def IsClientError (r : Registry) (errCode : Int) : Bool :=
  let status := HTTPStatus r errCode
  decide (400 ≤ status) && decide (status < 500)

/-- `code.IsServerError(errCode)`: the resolved status is at least 500. -/
def IsServerError (r : Registry) (errCode : Int) : Bool :=
  let status := HTTPStatus r errCode
  decide (500 ≤ status)

/-- `code.ErrorType` (`InternalError` = iota 0, `BusinessError` = 1). -/
inductive ErrorType : Type where
  | InternalError
  | BusinessError
deriving Repr, DecidableEq

/-- `code.classifyErrorType(errCode)`: status at least 500 is Internal,
everything else Business. -/
def classifyErrorType (r : Registry) (errCode : Int) : ErrorType :=
  if 500 ≤ HTTPStatus r errCode then .InternalError else .BusinessError

/-- `code.classifyErrorCategory(errCode)`: the switch over known codes,
with the 100300–100399 system band and the business default. -/
def classifyErrorCategory (errCode : Int) : String :=
  if errCode = ErrDatabase then "database"
  else if errCode = ErrRedis then "redis"
  else if errCode = ErrKafka then "kafka"
  else if errCode = ErrExternalService then "external"
  else if errCode = ErrValidation ∨ errCode = ErrBind ∨
      errCode = ErrBadRequest then "validation"
  else if errCode = ErrUnauthorized ∨ errCode = ErrTokenInvalid ∨
      errCode = ErrExpired ∨ errCode = ErrInvalidAuthHeader ∨
      errCode = ErrMissingHeader ∨ errCode = ErrSignatureInvalid ∨
      errCode = ErrPasswordIncorrect then "auth"
  else if errCode = ErrForbidden ∨ errCode = ErrPermissionDenied ∨
      errCode = ErrAccountLocked ∨ errCode = ErrAccountDisabled ∨
      errCode = ErrTooManyAttempts then "permission"
  else if 100300 ≤ errCode ∧ errCode < 100400 then "system"
  else "business"

/-- `code.ErrorInfo` (the Go `Type` field is named `errType` here because
`Type` is reserved in Lean). -/
structure ErrorInfo where
  errType : ErrorType
  category : String
  code : Int
  message : String
  details : String
deriving Repr, DecidableEq

/-- `code.NewErrorInfo(err)`: the zero `ErrorInfo` on nil; otherwise the
classified snapshot whose `Details` is `fmt.Sprintf("%+v", err)`, cleared
afterwards when the type classified as Business. -/
def NewErrorInfo (r : Registry) (resolve : Nat → Frame)
    (err : Option GoError) : ErrorInfo :=
  match err with
  | none =>
      { errType := .InternalError, category := "", code := 0,
        message := "", details := "" }
  | some e =>
    let errCode := GetCode (some e)
    let info : ErrorInfo :=
      { errType := classifyErrorType r errCode,
        category := classifyErrorCategory errCode,
        code := errCode,
        message := e.errorString,
        details := e.plusV resolve }
    if info.errType = .BusinessError then { info with details := "" }
    else info

/-! ### Helper lemmas -/

theorem string_eq_empty_of_length (a : String) (h : a.length = 0) : a = "" := by
  obtain ⟨data⟩ := a
  simp only [String.length] at h
  rw [List.length_eq_zero] at h
  subst h
  rfl

theorem string_append_ne_empty_left (a b : String) (h : a ≠ "") :
    a ++ b ≠ "" := by
  intro hh
  have h2 := congrArg String.length hh
  simp only [String.length_append] at h2
  have he : ("" : String).length = 0 := rfl
  rw [he] at h2
  exact h (string_eq_empty_of_length a (by omega))

theorem string_colon_ne_empty (a b : String) : a ++ ": " ++ b ≠ "" := by
  intro h
  have h2 := congrArg String.length h
  simp [String.length_append] at h2
  exact absurd h2.1.2 (by decide)

/-- The `errors.As` walk for `CodedError` yields exactly the first chain
node (outermost first) that has a `Code()` method. -/
theorem asCoded_eq_findSome :
    (e : GoError) → e.asCoded = e.chainList.findSome? GoError.ownCode
  | .fundamental m st => by
      simp [GoError.asCoded, GoError.chainList, GoError.ownCode]
  | .withMessage none m st hc cd => by
      simp [GoError.asCoded, GoError.chainList, GoError.ownCode]
  | .withMessage (some cause) m st hc cd => by
      simp [GoError.asCoded, GoError.chainList, GoError.ownCode,
        asCoded_eq_findSome cause]
  | .codeError cd m none st => by
      simp [GoError.asCoded, GoError.chainList, GoError.ownCode]
  | .codeError cd m (some cause) st => by
      simp [GoError.asCoded, GoError.chainList, GoError.ownCode]

/-- `errors.IsCode`'s manual walk agrees with scanning the chain node
list for a node whose own code equals the target. -/
theorem isCodeChain_eq_any :
    (e : GoError) → (c : Int) →
      IsCodeChain e c = e.chainList.any (fun n => n.ownCode == some c)
  | .fundamental m st, c => by
      simp [IsCodeChain, GoError.chainList, GoError.ownCode]
  | .withMessage none m st hc cd, c => by
      simp [IsCodeChain, GoError.chainList, GoError.ownCode]
  | .withMessage (some cause) m st hc cd, c => by
      simp [IsCodeChain, GoError.chainList, GoError.ownCode,
        isCodeChain_eq_any cause c]
  | .codeError cd m none st, c => by
      simp [IsCodeChain, GoError.chainList, GoError.ownCode]
  | .codeError cd m (some cause) st, c => by
      simp [IsCodeChain, GoError.chainList, GoError.ownCode,
        isCodeChain_eq_any cause c]

/-- When the chain carries a code, the `%+v` rendering is non-empty: a
`codeError` prints a `[code]` prefix, and a `withMessage` above it prints
a `": "`-joined message. -/
theorem plusV_ne_empty (resolve : Nat → Frame) (e : GoError)
    (h : e.asCoded ≠ none) : e.plusV resolve ≠ "" := by
  match e with
  | .fundamental m st => exact absurd rfl h
  | .withMessage none m st hc cd => exact absurd rfl h
  | .withMessage (some cause) m st hc cd =>
      exact string_append_ne_empty_left _ _
        (string_colon_ne_empty m cause.errorString)
  | .codeError cd m none st =>
      refine string_append_ne_empty_left _ _ ?_
      refine string_append_ne_empty_left _ _ ?_
      refine string_append_ne_empty_left _ _ ?_
      exact string_append_ne_empty_left "[" (toString cd) (by decide)
  | .codeError cd m (some cause) st =>
      refine string_append_ne_empty_left _ _ ?_
      refine string_append_ne_empty_left _ _ ?_
      refine string_append_ne_empty_left _ _ ?_
      refine string_append_ne_empty_left _ _ ?_
      exact string_append_ne_empty_left "[" (toString cd) (by decide)

theorem lookup_found_iff (r : Registry) (c : Int) :
    (Lookup r c).2 = true ↔ ∃ k, regFind r c = some k := by
  unfold Lookup
  rcases h : regFind r c with _ | k <;> simp [h]

theorem regFind_regInsert_self (r : Registry) (c : Int) (v : coder) :
    regFind (regInsert r c v) c = some v := by
  induction r with
  | nil => simp [regInsert, regFind]
  | cons kv rest ih =>
      obtain ⟨k, w⟩ := kv
      by_cases h : k = c
      · simp [regInsert, regFind, h]
      · simp [regInsert, regFind, h, ih]

theorem regFind_regInsert_ne (r : Registry) (c c' : Int) (v : coder)
    (h : c' ≠ c) : regFind (regInsert r c v) c' = regFind r c' := by
  induction r with
  | nil => simp [regInsert, regFind, Ne.symm h]
  | cons kv rest ih =>
      obtain ⟨k, w⟩ := kv
      by_cases hk : k = c
      · subst hk
        simp [regInsert, regFind, Ne.symm h]
      · simp [regInsert, regFind, hk, ih]

/-! ### Claim theorems -/

/-- C1, counterexample: the claim is false as stated — the HTTP wrapper
`WrapBadRequestError` does **not** preserve nil-in/nil-out: on a nil input
error it returns a freshly constructed coded error (via `wrapOrNew`), not
nil. -/
theorem wrapBadRequestError_nil_not_nil :
    WrapBadRequestError none "x" [] ≠ none := by
  intro h
  simp [WrapBadRequestError, wrapOrNew, NewError, WithCode] at h

/-- C1, amended: the infrastructure wrappers (`WrapDatabaseError`,
`WrapRedisError`, `WrapKafkaError`, `WrapExternalError`) go through
`wrapIfError` and preserve the nil-in/nil-out contract, while the HTTP
wrappers (`WrapBadRequestError`, `WrapUnauthorizedError`,
`WrapForbiddenError`, `WrapNotFoundError`, `WrapInternalServerError`,
`WrapBindError`, `WrapValidationError`) go through `wrapOrNew` and on a
nil input return a fresh non-nil error carrying their category code. -/
theorem wrapper_nil_contract_amended (op svc m : String) (st : List Nat) :
    WrapDatabaseError none op st = none ∧
    WrapRedisError none op st = none ∧
    WrapKafkaError none op st = none ∧
    WrapExternalError none svc op st = none ∧
    (WrapBadRequestError none m st).isSome = true ∧
    GetCode (WrapBadRequestError none m st) = ErrBadRequest ∧
    (WrapUnauthorizedError none m st).isSome = true ∧
    GetCode (WrapUnauthorizedError none m st) = ErrUnauthorized ∧
    (WrapForbiddenError none m st).isSome = true ∧
    GetCode (WrapForbiddenError none m st) = ErrForbidden ∧
    (WrapNotFoundError none m st).isSome = true ∧
    GetCode (WrapNotFoundError none m st) = ErrNotFound ∧
    (WrapInternalServerError none m st).isSome = true ∧
    GetCode (WrapInternalServerError none m st) = ErrInternalServer ∧
    (WrapBindError none m st).isSome = true ∧
    GetCode (WrapBindError none m st) = ErrBind ∧
    (WrapValidationError none m st).isSome = true ∧
    GetCode (WrapValidationError none m st) = ErrValidation :=
  ⟨rfl, rfl, rfl, rfl, rfl, rfl, rfl, rfl, rfl, rfl, rfl, rfl, rfl, rfl,
    rfl, rfl, rfl, rfl⟩

/-- C2: every core wrapping operation is nil-in/nil-out — `Wrap`,
`Wrapf`, `WithMessage`, `WithMessagef` and `WrapCode` return nil on a nil
cause (`WrapCode` discards the code) — and on a non-nil cause each
returns exactly one new node whose `cause` field is the given non-nil
error, so none of them ever produces a node wrapping a nil cause. -/
theorem core_wrap_nil_in_nil_out (m format : String) (args : List FmtArg)
    (c : Int) (st : List Nat) (e : GoError) :
    Wrap none m st = none ∧
    Wrapf none format args st = none ∧
    WithMessage none m = none ∧
    WithMessagef none format args = none ∧
    WrapCode none c format args st = none ∧
    Wrap (some e) m st = some (.withMessage (some e) m st false 0) ∧
    Wrapf (some e) format args st
      = some (.withMessage (some e) (Sprintf format args) st false 0) ∧
    WithMessage (some e) m = some (.withMessage (some e) m [] false 0) ∧
    WithMessagef (some e) format args
      = some (.withMessage (some e) (Sprintf format args) [] false 0) ∧
    WrapCode (some e) c format args st
      = some (.codeError c (Sprintf format args) (some e) st) :=
  ⟨rfl, rfl, rfl, rfl, rfl, rfl, rfl, rfl, rfl, rfl⟩

/-- C3, counterexample: the claim asserts `IsClientError(404) == true`,
but `404` is a raw HTTP status, not one of the registered error codes, so
the registry resolves it to the default status 500 and `IsClientError`
returns false on it. -/
theorem isClientError_404_unregistered :
    IsClientError initRegistry 404 = false ∧
    HTTPStatus initRegistry 404 = 500 := by decide

/-- C3, amended: `IsClientError code` holds exactly when the status the
registry resolves for `code` lies in [400,500) and `IsServerError code`
exactly when that status is at least 500; `IsServerError 500 = true` and
`IsClientError 500 = false` (code 500 is unregistered and defaults to
status 500), but `IsClientError 404 = false` for the same reason — the
registered not-found code is `ErrNotFound` (100404), for which
`IsClientError` holds. -/
theorem status_bucketing_amended :
    (∀ (r : Registry) (c : Int),
      IsClientError r c = true ↔
        400 ≤ HTTPStatus r c ∧ HTTPStatus r c < 500) ∧
    (∀ (r : Registry) (c : Int),
      IsServerError r c = true ↔ 500 ≤ HTTPStatus r c) ∧
    IsServerError initRegistry 500 = true ∧
    IsClientError initRegistry 500 = false ∧
    IsClientError initRegistry 404 = false ∧
    IsClientError initRegistry ErrNotFound = true := by
  refine ⟨?_, ?_, by decide, by decide, by decide, by decide⟩
  · intro r c
    simp [IsClientError]
  · intro r c
    simp [IsServerError]

/-- C4: message rendering is the recursive colon-joined concatenation
over the chain — every node renders as its own message when it has no
cause and as `msg ++ ": " ++ cause rendering` otherwise; in particular
`New m` renders as `m` and `Wrap e m` renders as `m ++ ": " ++` the
rendering of `e`. -/
theorem errorString_recursive_colon_join (n e : GoError) (m : String)
    (st : List Nat) :
    (n.errorString = match n.unwrapped with
      | none => n.msgField
      | some c => n.msgField ++ ": " ++ c.errorString) ∧
    (New m st).map GoError.errorString = some m ∧
    (Wrap (some e) m st).map GoError.errorString
      = some (m ++ ": " ++ e.errorString) := by
  refine ⟨?_, rfl, rfl⟩
  match n with
  | .fundamental m2 st2 => rfl
  | .withMessage none m2 st2 hc cd => rfl
  | .withMessage (some c2) m2 st2 hc cd => rfl
  | .codeError cd m2 none st2 => rfl
  | .codeError cd m2 (some c2) st2 => rfl

/-- C5: `Register` fails fast (panics, modelled as `.error`) exactly when
the code is 0 or already registered — both checks precede the map write,
so a failing call leaves the registry unchanged — while `MustRegister`
fails only on code 0 and on a non-zero code always succeeds, overwriting
any existing entry so that a subsequent `Lookup` returns the new status
and message. -/
theorem register_fail_fast_overwrite (r : Registry) (c status : Int)
    (msg : String) :
    ((∃ s, Register r c status msg = .error s) ↔
      (c = 0 ∨ (Lookup r c).2 = true)) ∧
    ((∃ s, MustRegister r c status msg = .error s) ↔ c = 0) ∧
    (c ≠ 0 → ∃ r2, MustRegister r c status msg = .ok r2 ∧
      Lookup r2 c
        = ({ code := c, httpStatus := status, message := msg }, true)) := by
  refine ⟨?_, ?_, ?_⟩
  · by_cases hc : c = 0
    · subst hc
      simp [Register]
    · rcases hf : regFind r c with _ | k
      · simp [Register, hc, hf, Lookup]
      · simp [Register, hc, hf, Lookup]
  · by_cases hc : c = 0 <;> simp [MustRegister, hc]
  · intro hc
    refine ⟨regInsert r c { code := c, httpStatus := status, message := msg },
      ?_, ?_⟩
    · simp [MustRegister, hc]
    · simp [Lookup, regFind_regInsert_self]

/-- C5 witness: overwriting an existing entry for code 7 succeeds and a
subsequent lookup sees the new status and message. -/
theorem register_fail_fast_overwrite_witness :
    ∃ r2, MustRegister
        [((7 : Int), ({ code := 7, httpStatus := 400, message := "old" } :
          coder))] 7 403 "new" = Except.ok r2 ∧
      Lookup r2 7
        = ({ code := 7, httpStatus := 403, message := "new" }, true) :=
  (register_fail_fast_overwrite
    [(7, { code := 7, httpStatus := 400, message := "old" })]
    7 403 "new").2.2 (by decide)

/-- C6: `HTTPStatus` is total — it returns the registered status for a
registered code and the default server-error status 500 for an
unregistered one — and `Lookup` reports `found = false` for every
unregistered code. -/
theorem httpStatus_total_default (r : Registry) (c : Int) :
    (∀ k : coder, regFind r c = some k → HTTPStatus r c = k.httpStatus) ∧
    (regFind r c = none →
      HTTPStatus r c = 500 ∧ (Lookup r c).2 = false) := by
  constructor
  · intro k hk
    simp [HTTPStatus, hk]
  · intro hk
    simp [HTTPStatus, Lookup, hk]

/-- C6 witness: registered code 100400 resolves to its registered status
400; unregistered code 404 resolves to the default 500 and is not
found. -/
theorem httpStatus_total_default_witness :
    HTTPStatus initRegistry 100400 = 400 ∧
    HTTPStatus initRegistry 404 = 500 ∧
    (Lookup initRegistry 404).2 = false :=
  ⟨(httpStatus_total_default initRegistry 100400).1
      { code := 100400, httpStatus := 400, message := "Bad request" }
      (by decide),
    (httpStatus_total_default initRegistry 404).2 (by decide)⟩

/-- C7: `NewErrorInfo` suppresses detail for Business-classified errors
(the `Details` field is cleared to the empty string) and retains it for
Internal-classified ones, where it equals the full verbose chain
rendering (`%+v`), which is non-empty whenever the chain carries a code
(as in the claim's examples 100400 and 100500). -/
theorem newErrorInfo_detail_policy (resolve : Nat → Frame) (e : GoError) :
    (classifyErrorType initRegistry (GetCode (some e)) = .BusinessError →
      (NewErrorInfo initRegistry resolve (some e)).details = "") ∧
    (classifyErrorType initRegistry (GetCode (some e)) = .InternalError →
      (NewErrorInfo initRegistry resolve (some e)).details
        = e.plusV resolve) ∧
    (classifyErrorType initRegistry (GetCode (some e)) = .InternalError →
      GetCode (some e) ≠ 0 →
      (NewErrorInfo initRegistry resolve (some e)).details ≠ "") := by
  refine ⟨?_, ?_, ?_⟩
  · intro hB
    simp [NewErrorInfo, hB]
  · intro hI
    simp [NewErrorInfo, hI]
  · intro hI hc
    have hd : (NewErrorInfo initRegistry resolve (some e)).details
        = e.plusV resolve := by simp [NewErrorInfo, hI]
    rw [hd]
    apply plusV_ne_empty
    intro hn
    apply hc
    simp [GetCode, hn]

/-- C7 witness: a Business-classified coded error (100400) has empty
details; an Internal-classified coded error (100500) has non-empty
details. -/
theorem newErrorInfo_detail_policy_witness :
    (NewErrorInfo initRegistry (fun _ => ⟨"f", "g", 0⟩)
      (some (.codeError 100400 "m" none []))).details = "" ∧
    (NewErrorInfo initRegistry (fun _ => ⟨"f", "g", 0⟩)
      (some (.codeError 100500 "m" none []))).details ≠ "" :=
  ⟨(newErrorInfo_detail_policy (fun _ => ⟨"f", "g", 0⟩)
      (.codeError 100400 "m" none [])).1 (by decide),
    (newErrorInfo_detail_policy (fun _ => ⟨"f", "g", 0⟩)
      (.codeError 100500 "m" none [])).2.2 (by decide) (by decide)⟩

/-- C8: `GetCode` returns the code of the first node carrying a code in
the outermost-first chain scan, 0 when no node carries one (and on nil),
and extraction does not require registration: `GetCode (WithCode 42 "x")`
is 42 although 42 is never registered. -/
theorem getCode_outermost_first_scan (e : GoError) (st : List Nat) :
    GetCode none = 0 ∧
    GetCode (some e) = (e.chainList.findSome? GoError.ownCode).getD 0 ∧
    GetCode (WithCode 42 "x" [] st) = 42 ∧
    regFind initRegistry 42 = none := by
  refine ⟨rfl, ?_, rfl, by decide⟩
  rcases hx : e.asCoded with _ | c
  · have h2 : e.chainList.findSome? GoError.ownCode = none := by
      rw [← asCoded_eq_findSome e, hx]
    simp [GetCode, hx, h2]
  · have h2 : e.chainList.findSome? GoError.ownCode = some c := by
      rw [← asCoded_eq_findSome e, hx]
    simp [GetCode, hx, h2]

/-- C9: `IsCode` finds a code at any depth by walking cause links
outermost-first and comparing each node's own code for exact equality;
for `c1 = WithCode 1 "a"` and `c2 = WrapCode c1 2 "b"`, `IsCode c2 1`,
`IsCode c2 2` hold and `IsCode c2 3` does not, for any captured
stacks. -/
theorem isCode_any_depth (e : GoError) (c : Int) (st1 st2 : List Nat) :
    IsCode (some e) c = e.chainList.any (fun n => n.ownCode == some c) ∧
    IsCode none c = false ∧
    IsCode (WrapCode (WithCode 1 "a" [] st1) 2 "b" [] st2) 1 = true ∧
    IsCode (WrapCode (WithCode 1 "a" [] st1) 2 "b" [] st2) 2 = true ∧
    IsCode (WrapCode (WithCode 1 "a" [] st1) 2 "b" [] st2) 3 = false :=
  ⟨isCodeChain_eq_any e c, rfl, rfl, rfl, rfl⟩

/-- The registry consistency invariant of C10: every stored coder is
keyed by its own code, and code 0 is never present. -/
def regInvariant (r : Registry) : Prop :=
  ∀ c : Int, (Lookup r c).2 = true → (Lookup r c).1.code = c ∧ c ≠ 0

/-- Inserting a coder keyed by its own non-zero code preserves the
registry consistency invariant. -/
theorem regInvariant_insert (r : Registry) (c status : Int) (msg : String)
    (hinv : regInvariant r) (hc : c ≠ 0) :
    regInvariant
      (regInsert r c { code := c, httpStatus := status, message := msg }) := by
  intro c2 hc2
  by_cases h2 : c2 = c
  · subst h2
    exact ⟨by simp [Lookup, regFind_regInsert_self], hc⟩
  · have heq : Lookup
        (regInsert r c { code := c, httpStatus := status, message := msg }) c2
        = Lookup r c2 := by
      simp [Lookup, regFind_regInsert_ne r c c2 _ h2]
    rw [heq] at hc2 ⊢
    exact hinv c2 hc2

/-- C10: the registry consistency invariant — `Lookup c = (k, true)`
implies `k.code = c` and `c ≠ 0` — holds for the empty registry and is
preserved by every successful `Register` and `MustRegister`. -/
theorem registry_code_key_invariant :
    regInvariant [] ∧
    (∀ (r : Registry) (c status : Int) (msg : String) (r2 : Registry),
      regInvariant r → Register r c status msg = .ok r2 →
      regInvariant r2) ∧
    (∀ (r : Registry) (c status : Int) (msg : String) (r2 : Registry),
      regInvariant r → MustRegister r c status msg = .ok r2 →
      regInvariant r2) := by
  refine ⟨?_, ?_, ?_⟩
  · intro c hc
    simp [Lookup, regFind] at hc
  · intro r c status msg r2 hinv hok
    by_cases hc : c = 0
    · simp [Register, hc] at hok
    · rcases hf : regFind r c with _ | k
      · simp [Register, hc, hf] at hok
        subst hok
        exact regInvariant_insert r c status msg hinv hc
      · simp [Register, hc, hf] at hok
  · intro r c status msg r2 hinv hok
    by_cases hc : c = 0
    · simp [MustRegister, hc] at hok
    · simp [MustRegister, hc] at hok
      subst hok
      exact regInvariant_insert r c status msg hinv hc

/-- C10 witness: registering code 5 into the empty registry yields a
registry whose stored coder for key 5 carries code 5, and 5 is
non-zero. -/
theorem registry_code_key_invariant_witness :
    (Lookup [((5 : Int),
      ({ code := 5, httpStatus := 400, message := "m" } : coder))] 5).1.code
        = 5 ∧ (5 : Int) ≠ 0 :=
  (registry_code_key_invariant.2.1 [] 5 400 "m"
    [(5, { code := 5, httpStatus := 400, message := "m" })]
    registry_code_key_invariant.1 rfl) 5 (by decide)

end GoKit
